import Mathlib

/-!
# Verification of the multi-tenant messaging-session manager

Shallow embedding of the Go backend (package `whatsapp`, `models`,
`services`) of this repository, together with proofs about the embedded
definitions.  Machine integers are modelled as `Int`/`Nat`; the Go
`float64` average `totalScore / 8.0` is modelled as a rational, which is
faithful because `k / 8.0` is exact in binary floating point for
`0 ≤ k ≤ 24` and the comparisons against `2.5` and `1.5` (both exactly
representable) therefore coincide with the rational comparisons.
-/

namespace CekWA

/-! ## Scoring engine (`backend/internal/models/analysis.go`) -/

/-- Embeds Go `models.ParameterEvaluation`: one scored metric. -/
structure ParameterEvaluation where
  parameter : String
  value : Int
  status : String
  score : Int
deriving Repr, DecidableEq

/-- Embeds Go `evaluateTotalChats` (thresholds 100 / 40, higher is better). -/
def evaluateTotalChats (value : Int) : ParameterEvaluation :=
  if value ≥ 100 then ⟨"Total Chats", value, "Baik", 3⟩
  else if value ≥ 40 then ⟨"Total Chats", value, "Cukup", 2⟩
  else ⟨"Total Chats", value, "Buruk", 1⟩

/-- Embeds Go `evaluateTotalContacts` (thresholds 200 / 100, higher is better). -/
def evaluateTotalContacts (value : Int) : ParameterEvaluation :=
  if value ≥ 200 then ⟨"Total Kontak", value, "Baik", 3⟩
  else if value ≥ 100 then ⟨"Total Kontak", value, "Cukup", 2⟩
  else ⟨"Total Kontak", value, "Buruk", 1⟩

/-- Embeds Go `evaluateAccountAge` (thresholds 365 / 90 days, higher is better). -/
def evaluateAccountAge (value : Int) : ParameterEvaluation :=
  if value ≥ 365 then ⟨"Umur Akun", value, "Baik", 3⟩
  else if value ≥ 90 then ⟨"Umur Akun", value, "Cukup", 2⟩
  else ⟨"Umur Akun", value, "Buruk", 1⟩

/-- Embeds Go `evaluateTotalGroups` (thresholds 80 / 30, higher is better). -/
def evaluateTotalGroups (value : Int) : ParameterEvaluation :=
  if value ≥ 80 then ⟨"Total Grup", value, "Baik", 3⟩
  else if value ≥ 30 then ⟨"Total Grup", value, "Cukup", 2⟩
  else ⟨"Total Grup", value, "Buruk", 1⟩

/-- Embeds Go `evaluateChatWithContacts` (thresholds 100 / 30, higher is better). -/
def evaluateChatWithContacts (value : Int) : ParameterEvaluation :=
  if value ≥ 100 then ⟨"Chat dengan Kontak", value, "Baik", 3⟩
  else if value ≥ 30 then ⟨"Chat dengan Kontak", value, "Cukup", 2⟩
  else ⟨"Chat dengan Kontak", value, "Buruk", 1⟩

/-- Embeds Go `evaluateSensitiveContent` (thresholds 5 / 10, lower is better). -/
def evaluateSensitiveContent (value : Int) : ParameterEvaluation :=
  if value ≤ 5 then ⟨"Sensitivitas Chat", value, "Baik", 3⟩
  else if value ≤ 10 then ⟨"Sensitivitas Chat", value, "Cukup", 2⟩
  else ⟨"Sensitivitas Chat", value, "Buruk", 1⟩

/-- Embeds Go `evaluateUnsavedChats` (thresholds 100 / 500, lower is better). -/
def evaluateUnsavedChats (value : Int) : ParameterEvaluation :=
  if value ≤ 100 then ⟨"Uninterested Chat", value, "Baik", 3⟩
  else if value ≤ 500 then ⟨"Uninterested Chat", value, "Cukup", 2⟩
  else ⟨"Uninterested Chat", value, "Buruk", 1⟩

/-- Embeds Go `evaluateUnknownChats` (thresholds 15 / 30, lower is better). -/
def evaluateUnknownChats (value : Int) : ParameterEvaluation :=
  if value ≤ 15 then ⟨"Chat tidak dikenal", value, "Baik", 3⟩
  else if value ≤ 30 then ⟨"Chat tidak dikenal", value, "Cukup", 2⟩
  else ⟨"Chat tidak dikenal", value, "Buruk", 1⟩

/-- The `evaluations` slice built at the top of Go `CalculateStrength`,
in source order. -/
def strengthEvaluations (totalChats totalContacts accountAgeDays totalGroups
    totalChatWithContact sensitiveContentCount totalUnsavedChats
    unknownNumberChats : Int) : List ParameterEvaluation :=
  [evaluateTotalChats totalChats,
   evaluateTotalContacts totalContacts,
   evaluateAccountAge accountAgeDays,
   evaluateTotalGroups totalGroups,
   evaluateChatWithContacts totalChatWithContact,
   evaluateSensitiveContent sensitiveContentCount,
   evaluateUnsavedChats totalUnsavedChats,
   evaluateUnknownChats unknownNumberChats]

/-- The `totalScore` accumulation loop of Go `CalculateStrength`. -/
def totalScoreOf (evals : List ParameterEvaluation) : Int :=
  evals.foldl (fun acc e => acc + e.score) 0

/-- Go `averageScore := float64(totalScore) / 8.0`, modelled exactly in ℚ
(exact for the float64 values that actually occur, see file header). -/
def averageScoreOf (evals : List ParameterEvaluation) : ℚ :=
  (totalScoreOf evals : ℚ) / 8

/-- Embeds Go `models.CalculateStrength`, returning the strength label
(the summary string, which no claim concerns, is not modelled). -/
def CalculateStrength (totalChats totalContacts accountAgeDays totalGroups
    totalChatWithContact sensitiveContentCount totalUnsavedChats
    unknownNumberChats : Int) : String :=
  let evals := strengthEvaluations totalChats totalContacts accountAgeDays
    totalGroups totalChatWithContact sensitiveContentCount totalUnsavedChats
    unknownNumberChats
  let averageScore := averageScoreOf evals
  if averageScore ≥ 5/2 then "Baik"
  else if averageScore ≥ 3/2 then "Cukup"
  else "Buruk"

/-- Each evaluator's score lies in `{1, 2, 3}` (helper). -/
lemma score_bounds_totalChats (v : Int) :
    1 ≤ (evaluateTotalChats v).score ∧ (evaluateTotalChats v).score ≤ 3 := by
  unfold evaluateTotalChats; split <;> (try split) <;> simp

lemma score_bounds_totalContacts (v : Int) :
    1 ≤ (evaluateTotalContacts v).score ∧ (evaluateTotalContacts v).score ≤ 3 := by
  unfold evaluateTotalContacts; split <;> (try split) <;> simp

lemma score_bounds_accountAge (v : Int) :
    1 ≤ (evaluateAccountAge v).score ∧ (evaluateAccountAge v).score ≤ 3 := by
  unfold evaluateAccountAge; split <;> (try split) <;> simp

lemma score_bounds_totalGroups (v : Int) :
    1 ≤ (evaluateTotalGroups v).score ∧ (evaluateTotalGroups v).score ≤ 3 := by
  unfold evaluateTotalGroups; split <;> (try split) <;> simp

lemma score_bounds_chatWithContacts (v : Int) :
    1 ≤ (evaluateChatWithContacts v).score ∧ (evaluateChatWithContacts v).score ≤ 3 := by
  unfold evaluateChatWithContacts; split <;> (try split) <;> simp

lemma score_bounds_sensitiveContent (v : Int) :
    1 ≤ (evaluateSensitiveContent v).score ∧ (evaluateSensitiveContent v).score ≤ 3 := by
  unfold evaluateSensitiveContent; split <;> (try split) <;> simp

lemma score_bounds_unsavedChats (v : Int) :
    1 ≤ (evaluateUnsavedChats v).score ∧ (evaluateUnsavedChats v).score ≤ 3 := by
  unfold evaluateUnsavedChats; split <;> (try split) <;> simp

lemma score_bounds_unknownChats (v : Int) :
    1 ≤ (evaluateUnknownChats v).score ∧ (evaluateUnknownChats v).score ≤ 3 := by
  unfold evaluateUnknownChats; split <;> (try split) <;> simp

/-- The fold in `CalculateStrength` sums exactly the eight metric scores. -/
lemma totalScore_eq_sum (a b c d e f g k : Int) :
    totalScoreOf (strengthEvaluations a b c d e f g k) =
      (evaluateTotalChats a).score + (evaluateTotalContacts b).score +
      (evaluateAccountAge c).score + (evaluateTotalGroups d).score +
      (evaluateChatWithContacts e).score + (evaluateSensitiveContent f).score +
      (evaluateUnsavedChats g).score + (evaluateUnknownChats k).score := by
  simp [totalScoreOf, strengthEvaluations, List.foldl]

/-- Bounds `8 ≤ totalScore ≤ 24` (helper). -/
lemma totalScore_bounds (a b c d e f g k : Int) :
    8 ≤ totalScoreOf (strengthEvaluations a b c d e f g k) ∧
      totalScoreOf (strengthEvaluations a b c d e f g k) ≤ 24 := by
  rw [totalScore_eq_sum]
  have h1 := score_bounds_totalChats a
  have h2 := score_bounds_totalContacts b
  have h3 := score_bounds_accountAge c
  have h4 := score_bounds_totalGroups d
  have h5 := score_bounds_chatWithContacts e
  have h6 := score_bounds_sensitiveContent f
  have h7 := score_bounds_unsavedChats g
  have h8 := score_bounds_unknownChats k
  omega

/-- C8: for every octuple of integer metric inputs, each metric is
independently bucketed into Baik/Cukup/Buruk (3/2/1 points) by its fixed
threshold, with the higher-is-better direction for chats, contacts, age,
groups, chats-with-contact and the lower-is-better direction for
sensitive/unsaved/unknown counts; the mean of the eight scores lies in
`[1, 3]`; and the overall label is exactly Baik when mean ≥ 5/2, Cukup
when 3/2 ≤ mean < 5/2 and Buruk when mean < 3/2, the boundary values
included. -/
theorem C8_scoring_engine (a b c d e f g k : Int) :
    (averageScoreOf (strengthEvaluations a b c d e f g k) =
      ((evaluateTotalChats a).score + (evaluateTotalContacts b).score +
       (evaluateAccountAge c).score + (evaluateTotalGroups d).score +
       (evaluateChatWithContacts e).score + (evaluateSensitiveContent f).score +
       (evaluateUnsavedChats g).score + (evaluateUnknownChats k).score : ℚ) / 8) ∧
    (1 ≤ averageScoreOf (strengthEvaluations a b c d e f g k) ∧
      averageScoreOf (strengthEvaluations a b c d e f g k) ≤ 3) ∧
    (CalculateStrength a b c d e f g k = "Baik" ↔
      5/2 ≤ averageScoreOf (strengthEvaluations a b c d e f g k)) ∧
    (CalculateStrength a b c d e f g k = "Cukup" ↔
      (3/2 ≤ averageScoreOf (strengthEvaluations a b c d e f g k) ∧
       averageScoreOf (strengthEvaluations a b c d e f g k) < 5/2)) ∧
    (CalculateStrength a b c d e f g k = "Buruk" ↔
      averageScoreOf (strengthEvaluations a b c d e f g k) < 3/2) ∧
    (((evaluateTotalChats a).score = 3 ↔ 100 ≤ a) ∧
     ((evaluateTotalChats a).score = 2 ↔ 40 ≤ a ∧ a < 100) ∧
     ((evaluateTotalChats a).score = 1 ↔ a < 40)) ∧
    (((evaluateTotalContacts b).score = 3 ↔ 200 ≤ b) ∧
     ((evaluateTotalContacts b).score = 2 ↔ 100 ≤ b ∧ b < 200) ∧
     ((evaluateTotalContacts b).score = 1 ↔ b < 100)) ∧
    (((evaluateAccountAge c).score = 3 ↔ 365 ≤ c) ∧
     ((evaluateAccountAge c).score = 2 ↔ 90 ≤ c ∧ c < 365) ∧
     ((evaluateAccountAge c).score = 1 ↔ c < 90)) ∧
    (((evaluateTotalGroups d).score = 3 ↔ 80 ≤ d) ∧
     ((evaluateTotalGroups d).score = 2 ↔ 30 ≤ d ∧ d < 80) ∧
     ((evaluateTotalGroups d).score = 1 ↔ d < 30)) ∧
    (((evaluateChatWithContacts e).score = 3 ↔ 100 ≤ e) ∧
     ((evaluateChatWithContacts e).score = 2 ↔ 30 ≤ e ∧ e < 100) ∧
     ((evaluateChatWithContacts e).score = 1 ↔ e < 30)) ∧
    (((evaluateSensitiveContent f).score = 3 ↔ f ≤ 5) ∧
     ((evaluateSensitiveContent f).score = 2 ↔ 5 < f ∧ f ≤ 10) ∧
     ((evaluateSensitiveContent f).score = 1 ↔ 10 < f)) ∧
    (((evaluateUnsavedChats g).score = 3 ↔ g ≤ 100) ∧
     ((evaluateUnsavedChats g).score = 2 ↔ 100 < g ∧ g ≤ 500) ∧
     ((evaluateUnsavedChats g).score = 1 ↔ 500 < g)) ∧
    (((evaluateUnknownChats k).score = 3 ↔ k ≤ 15) ∧
     ((evaluateUnknownChats k).score = 2 ↔ 15 < k ∧ k ≤ 30) ∧
     ((evaluateUnknownChats k).score = 1 ↔ 30 < k)) := by
  have hts := totalScore_bounds a b c d e f g k
  have havg : averageScoreOf (strengthEvaluations a b c d e f g k) =
      (totalScoreOf (strengthEvaluations a b c d e f g k) : ℚ) / 8 := rfl
  have hCS : CalculateStrength a b c d e f g k =
      (if 5/2 ≤ averageScoreOf (strengthEvaluations a b c d e f g k) then "Baik"
       else if 3/2 ≤ averageScoreOf (strengthEvaluations a b c d e f g k) then "Cukup"
       else "Buruk") := rfl
  refine ⟨?_, ⟨?_, ?_⟩, ?_, ?_, ?_, ?_, ?_, ?_, ?_, ?_, ?_, ?_, ?_⟩
  · rw [havg, totalScore_eq_sum]; push_cast; ring
  · rw [havg, le_div_iff₀ (by norm_num : (0:ℚ) < 8)]
    have : (8:ℚ) ≤ (totalScoreOf (strengthEvaluations a b c d e f g k) : ℚ) := by
      exact_mod_cast hts.1
    linarith
  · rw [havg, div_le_iff₀ (by norm_num : (0:ℚ) < 8)]
    have : (totalScoreOf (strengthEvaluations a b c d e f g k) : ℚ) ≤ 24 := by
      exact_mod_cast hts.2
    linarith
  · rw [hCS]
    by_cases h1 : 5/2 ≤ averageScoreOf (strengthEvaluations a b c d e f g k)
    · rw [if_pos h1]; exact iff_of_true rfl h1
    · rw [if_neg h1]
      by_cases h2 : 3/2 ≤ averageScoreOf (strengthEvaluations a b c d e f g k)
      · rw [if_pos h2]; exact iff_of_false (by decide) h1
      · rw [if_neg h2]; exact iff_of_false (by decide) h1
  · rw [hCS]
    by_cases h1 : 5/2 ≤ averageScoreOf (strengthEvaluations a b c d e f g k)
    · rw [if_pos h1]
      exact iff_of_false (by decide) (by rintro ⟨_, hlt⟩; linarith)
    · rw [if_neg h1]
      by_cases h2 : 3/2 ≤ averageScoreOf (strengthEvaluations a b c d e f g k)
      · rw [if_pos h2]; exact iff_of_true rfl ⟨h2, lt_of_not_le h1⟩
      · rw [if_neg h2]; exact iff_of_false (by decide) (by rintro ⟨hle, _⟩; exact h2 hle)
  · rw [hCS]
    by_cases h1 : 5/2 ≤ averageScoreOf (strengthEvaluations a b c d e f g k)
    · rw [if_pos h1]
      exact iff_of_false (by decide) (by intro hlt; linarith)
    · rw [if_neg h1]
      by_cases h2 : 3/2 ≤ averageScoreOf (strengthEvaluations a b c d e f g k)
      · rw [if_pos h2]
        exact iff_of_false (by decide) (by intro hlt; linarith)
      · rw [if_neg h2]; exact iff_of_true rfl (lt_of_not_le h2)
  · unfold evaluateTotalChats; split <;> (try split) <;> simp <;> omega
  · unfold evaluateTotalContacts; split <;> (try split) <;> simp <;> omega
  · unfold evaluateAccountAge; split <;> (try split) <;> simp <;> omega
  · unfold evaluateTotalGroups; split <;> (try split) <;> simp <;> omega
  · unfold evaluateChatWithContacts; split <;> (try split) <;> simp <;> omega
  · unfold evaluateSensitiveContent; split <;> (try split) <;> simp <;> omega
  · unfold evaluateUnsavedChats; split <;> (try split) <;> simp <;> omega
  · unfold evaluateUnknownChats; split <;> (try split) <;> simp <;> omega

/-! ## Access gate (`services/otp_service.go` and the analyze handler) -/

/-- Embeds the fields of Go `models.Transaction` that the payment check
reads: the `(user_id, phone_number)` pair and the `status` column. -/
structure Transaction where
  userId : Int
  phoneNumber : String
  status : String
deriving Repr, DecidableEq

/-- Embeds Go `PaymentService.CheckIfUserPaidForPhone`: the SQL
`COUNT(*) WHERE user_id = ? AND phone_number = ? AND status = 'paid'`
compared with zero, over the transaction table modelled as a list. -/
def CheckIfUserPaidForPhone (db : List Transaction) (userID : Int)
    (phoneNumber : String) : Bool :=
  0 < (db.countP fun t =>
    t.userId == userID && t.phoneNumber == phoneNumber && t.status == "paid")

/-- Embeds Go `PaymentService.CheckIfUserHasAnyPaidTransaction`: the SQL
`COUNT(*) WHERE user_id = ? AND status = 'paid'` compared with zero. -/
def CheckIfUserHasAnyPaidTransaction (db : List Transaction) (userID : Int) : Bool :=
  0 < (db.countP fun t => t.userId == userID && t.status == "paid")

/-- The three observable outcomes of the payment gate in
`MultiUserWhatsAppHandler.HandleAnalyze`: proceed with analysis, or one of
the two 402 bodies distinguished by their `error_type` field. -/
inductive GateOutcome where
  | allowed
  | wrongPhoneNumber
  | noPayment
deriving Repr, DecidableEq

/-- Embeds the payment-gate decision of `HandleAnalyze`: allowed iff
`CheckIfUserPaidForPhone`; otherwise `error_type` is
`wrong_phone_number` when `CheckIfUserHasAnyPaidTransaction` holds and
`no_payment` when it does not. -/
def analyzeGateDecision (db : List Transaction) (userID : Int)
    (boundPhone : String) : GateOutcome :=
  if CheckIfUserPaidForPhone db userID boundPhone then .allowed
  else if CheckIfUserHasAnyPaidTransaction db userID then .wrongPhoneNumber
  else .noPayment

/-- Membership form of a paid transaction for `(u, phone)` (helper). -/
def hasPaidTransaction (db : List Transaction) (u : Int) (phone : String) : Prop :=
  ∃ t ∈ db, t.userId = u ∧ t.phoneNumber = phone ∧ t.status = "paid"

/-- `CheckIfUserPaidForPhone` decides `hasPaidTransaction` (helper). -/
lemma checkPaid_iff (db : List Transaction) (u : Int) (phone : String) :
    CheckIfUserPaidForPhone db u phone = true ↔ hasPaidTransaction db u phone := by
  unfold CheckIfUserPaidForPhone hasPaidTransaction
  rw [decide_eq_true_iff, List.countP_pos_iff]
  constructor
  · rintro ⟨t, ht, hp⟩
    refine ⟨t, ht, ?_⟩
    simp only [Bool.and_eq_true, beq_iff_eq] at hp
    exact ⟨hp.1.1, hp.1.2, hp.2⟩
  · rintro ⟨t, ht, h1, h2, h3⟩
    exact ⟨t, ht, by simp [h1, h2, h3]⟩

/-- `CheckIfUserHasAnyPaidTransaction` decides existence of a paid
transaction with any phone number (helper). -/
lemma checkAnyPaid_iff (db : List Transaction) (u : Int) :
    CheckIfUserHasAnyPaidTransaction db u = true ↔
      ∃ t ∈ db, t.userId = u ∧ t.status = "paid" := by
  unfold CheckIfUserHasAnyPaidTransaction
  rw [decide_eq_true_iff, List.countP_pos_iff]
  constructor
  · rintro ⟨t, ht, hp⟩
    refine ⟨t, ht, ?_⟩
    simp only [Bool.and_eq_true, beq_iff_eq] at hp
    exact ⟨hp.1, hp.2⟩
  · rintro ⟨t, ht, h1, h2⟩
    exact ⟨t, ht, by simp [h1, h2]⟩

/-- C6: the gate allows analysis iff a paid transaction exists for exactly
the pair `(userID, bound phone)`, and a denial is reported as
wrong-phone-number exactly when the user has a paid transaction for some
other phone; in particular a user with a paid transaction for phone `A`
and none for phone `B` is allowed when bound to `A` and denied as
`wrongPhoneNumber` (not `noPayment`) when bound to `B`. -/
theorem C6_access_gate (db : List Transaction) (u : Int) (phone : String) :
    (analyzeGateDecision db u phone = .allowed ↔ hasPaidTransaction db u phone) ∧
    (analyzeGateDecision db u phone = .wrongPhoneNumber ↔
      (¬ hasPaidTransaction db u phone ∧ ∃ t ∈ db, t.userId = u ∧ t.status = "paid")) ∧
    (analyzeGateDecision db u phone = .noPayment ↔
      ¬ ∃ t ∈ db, t.userId = u ∧ t.status = "paid") ∧
    (∀ otherPhone : String, hasPaidTransaction db u phone →
      ¬ hasPaidTransaction db u otherPhone →
      analyzeGateDecision db u phone = .allowed ∧
      analyzeGateDecision db u otherPhone = .wrongPhoneNumber) := by
  have hiffP := checkPaid_iff db u phone
  have hiffA := checkAnyPaid_iff db u
  refine ⟨?_, ?_, ?_, ?_⟩
  · unfold analyzeGateDecision
    by_cases hp : CheckIfUserPaidForPhone db u phone
    · rw [if_pos hp]; exact iff_of_true rfl (hiffP.mp hp)
    · rw [if_neg hp]
      have hnp : ¬ hasPaidTransaction db u phone := fun hh =>
        hp (hiffP.mpr hh)
      by_cases ha : CheckIfUserHasAnyPaidTransaction db u
      · rw [if_pos ha]; exact iff_of_false (by decide) hnp
      · rw [if_neg ha]; exact iff_of_false (by decide) hnp
  · unfold analyzeGateDecision
    by_cases hp : CheckIfUserPaidForPhone db u phone
    · rw [if_pos hp]
      exact iff_of_false (by decide) (fun hh => hh.1 (hiffP.mp hp))
    · rw [if_neg hp]
      have hnp : ¬ hasPaidTransaction db u phone := fun hh => hp (hiffP.mpr hh)
      by_cases ha : CheckIfUserHasAnyPaidTransaction db u
      · rw [if_pos ha]; exact iff_of_true rfl ⟨hnp, hiffA.mp ha⟩
      · rw [if_neg ha]
        exact iff_of_false (by decide) (fun hh => ha (hiffA.mpr hh.2))
  · unfold analyzeGateDecision
    by_cases hp : CheckIfUserPaidForPhone db u phone
    · rw [if_pos hp]
      refine iff_of_false (by decide) (fun hh => hh ?_)
      obtain ⟨t, ht, h1, _, h3⟩ := hiffP.mp hp
      exact ⟨t, ht, h1, h3⟩
    · rw [if_neg hp]
      by_cases ha : CheckIfUserHasAnyPaidTransaction db u
      · rw [if_pos ha]
        exact iff_of_false (by decide) (fun hh => hh (hiffA.mp ha))
      · rw [if_neg ha]
        exact iff_of_true rfl (fun hh => ha (hiffA.mpr hh))
  · intro otherPhone hA hB
    constructor
    · unfold analyzeGateDecision
      rw [if_pos (hiffP.mpr hA)]
    · unfold analyzeGateDecision
      have hpB : ¬ CheckIfUserPaidForPhone db u otherPhone = true := fun hc =>
        hB ((checkPaid_iff db u otherPhone).mp hc)
      rw [if_neg hpB]
      have haT : CheckIfUserHasAnyPaidTransaction db u = true := by
        obtain ⟨t, ht, h1, _, h3⟩ := hA
        exact hiffA.mpr ⟨t, ht, h1, h3⟩
      rw [if_pos haT]

/-- Witness for C6 at a concrete transaction table: user 1 paid for phone
"A" only; the gate allows "A" and reports "B" as wrong phone number. -/
theorem C6_access_gate_witness :
    analyzeGateDecision [⟨1, "A", "paid"⟩] 1 "A" = .allowed ∧
    analyzeGateDecision [⟨1, "A", "paid"⟩] 1 "B" = .wrongPhoneNumber :=
  (C6_access_gate [⟨1, "A", "paid"⟩] 1 "A").2.2.2 "B"
    ⟨⟨1, "A", "paid"⟩, by simp, rfl, rfl, rfl⟩
    (by rintro ⟨t, ht, h1, h2, h3⟩; simp at ht; subst ht; simp at h2)

/-! ## Per-user session state machine
(`backend/internal/whatsapp/multi_user_manager.go`)

Timestamps are seconds on an abstract monotone clock (`Nat`); the Go
zero `time.Time` of a fresh session's `LastConnectAttempt` is `0`.
The single analysis-cache slot (`AnalysisCache["current_session"]`) is an
`Option`; the `whatsmeow` client pointer and its transport state are the
two booleans `hasClient` / `clientConnected`. -/

/-- The fields of Go `models.AnalysisResult` that the claims read (the
summary string and the GORM bookkeeping columns are not modelled). -/
structure AnalysisResult where
  userId : Nat
  totalChats : Int
  totalContacts : Int
  accountAgeDays : Int
  totalGroups : Int
  totalChatWithContact : Int
  sensitiveContentCount : Int
  totalUnsavedChats : Int
  unknownNumberChats : Int
  strength : String
  scanHistoryId : Option Nat
deriving Repr, DecidableEq

/-- Embeds Go `UserWhatsAppSession`. -/
structure UserWhatsAppSession where
  userId : Nat
  hasClient : Bool
  clientConnected : Bool
  qrCode : String
  ready : Bool
  status : String
  lastConnectAttempt : Nat
  lastActivity : Nat
  analysisCache : Option AnalysisResult
deriving Repr, DecidableEq

/-- The session literal built in Go `createNewSession` (Go zero values
for the fields the literal leaves out). -/
def newUserSession (userID : Nat) (now : Nat) : UserWhatsAppSession :=
  { userId := userID, hasClient := false, clientConnected := false,
    qrCode := "", ready := false, status := "disconnected",
    lastConnectAttempt := 0, lastActivity := now, analysisCache := none }

/-- The environment a single `connect()` call observes: the clock, and
the outcomes of the foreign calls (`GetFirstDevice`, the presence of a
stored device ID, and the two `client.Connect()` attempts). -/
structure ConnectEnv where
  now : Nat
  getDeviceOk : Bool
  hasStoredCreds : Bool
  restoreOk : Bool
  freshConnectOk : Bool
deriving Repr, DecidableEq

/-- Embeds Go `UserWhatsAppSession.connect`.  Returns the new session, an
optional error string, and the list of statuses handed to the
fire-and-forget `saveOrUpdateSessionInDatabase` goroutines, in spawn
order.  The guard block returns `nil` before touching any field. -/
def connect (s : UserWhatsAppSession) (env : ConnectEnv) :
    UserWhatsAppSession × Option String × List String :=
  if s.status == "connected" then (s, none, [])
  else if s.status == "scanning" || s.status == "connecting" then (s, none, [])
  else if env.now - s.lastConnectAttempt < 5 then (s, none, [])
  else
    let s1 := { s with lastConnectAttempt := env.now, status := "connecting",
                       lastActivity := env.now }
    if !env.getDeviceOk then (s1, some "failed to get device store", ["connecting"])
    else if env.hasStoredCreds && env.restoreOk then
      ({ s1 with hasClient := true, clientConnected := true,
                 status := "connected", ready := true, qrCode := "",
                 lastActivity := env.now },
       none, ["connecting", "connected"])
    else if !env.freshConnectOk then
      (s1, some "failed to connect client", ["connecting"])
    else
      ({ s1 with hasClient := true, clientConnected := true,
                 status := "scanning", lastActivity := env.now },
       none, ["connecting", "scanning"])

/-- One item consumed by the `waitForQR` watcher loop: a pairing code
(with the outcome of the PNG encoding), the pairing-success event, any
other channel event, or the firing of the `time.After(2 * time.Minute)`
timer. -/
inductive QREvent where
  | code (c : String) (encodeOk : Bool)
  | success
  | other (e : String)
  | timeout
deriving Repr, DecidableEq

/-- The fixed pairing timeout of `waitForQR`, in seconds
(`time.After(2 * time.Minute)`). -/
def qrTimeoutSeconds : Nat := 120

/-- Embeds one iteration of Go `UserWhatsAppSession.waitForQR`: the new
session, whether the goroutine returns, and the status it hands to
`saveOrUpdateSessionInDatabase` (if any).  The PNG/base64 rendering of a
pairing code is modelled as the data-URL prefix applied to the raw code;
only (non-)emptiness of the artifact matters to the claims. -/
def waitForQRStep (s : UserWhatsAppSession) (ev : QREvent) (now : Nat) :
    UserWhatsAppSession × Bool × Option String :=
  match ev with
  | .code c encodeOk =>
      if encodeOk then
        ({ s with qrCode := "data:image/png;base64," ++ c }, false, none)
      else (s, false, none)
  | .success =>
      ({ s with status := "connected", ready := true, qrCode := "",
                lastActivity := now },
       true, some "connected")
  | .other _ => (s, false, none)
  | .timeout =>
      ({ s with status := "disconnected", qrCode := "" },
       true, some "disconnected")

/-! ## Session registry (`MultiUserWhatsAppManager`) -/

/-- Manager-level shared state: the in-memory registry map, the persisted
`whatsapp_sessions` rows (`user_id → status`), and the set of user IDs
whose per-user sqlite credential store exists on disk. -/
structure ManagerState where
  userSessions : List (Nat × UserWhatsAppSession)
  sessionRows : List (Nat × String)
  credFiles : List Nat
deriving Repr, DecidableEq

/-- Registry map lookup (`m.userSessions[userID]`). -/
def lookupSession (l : List (Nat × UserWhatsAppSession)) (uid : Nat) :
    Option UserWhatsAppSession :=
  (l.find? fun p => p.1 == uid).map (·.2)

/-- Persisted-row lookup: the status of the `whatsapp_sessions` row for a
user, if one exists. -/
def rowStatus (rows : List (Nat × String)) (uid : Nat) : Option String :=
  (rows.find? fun p => p.1 == uid).map (·.2)

/-- Embeds Go `saveOrUpdateSessionInDatabase`: update the row for the
user if one exists, create it otherwise. -/
def upsertRow (rows : List (Nat × String)) (uid : Nat) (st : String) :
    List (Nat × String) :=
  if rows.any (fun p => p.1 == uid) then
    rows.map fun p => if p.1 == uid then (p.1, st) else p
  else rows ++ [(uid, st)]

/-- The `UPDATE whatsapp_sessions SET status = ? WHERE user_id = ?` issued
by `Logout` when no in-memory session exists (updates, never creates). -/
def updateRowsStatus (rows : List (Nat × String)) (uid : Nat) (st : String) :
    List (Nat × String) :=
  rows.map fun p => if p.1 == uid then (p.1, st) else p

/-- Embeds Go `createNewSession` (run entirely under the exclusive
registry lock): re-check the map, then construct the session, initialize
its per-user credential store (the sqlite store file appears on disk),
store it, and upsert the status row.  The error path of
`initializeDatabase`, on which nothing is stored, is not modelled: the
claims concern the success path. -/
def createNewSession (m : ManagerState) (uid : Nat) (now : Nat) :
    ManagerState × UserWhatsAppSession :=
  match lookupSession m.userSessions uid with
  | some s => (m, s)
  | none =>
      let s := newUserSession uid now
      ({ userSessions := m.userSessions ++ [(uid, s)],
         sessionRows := upsertRow m.sessionRows uid s.status,
         credFiles :=
           if uid ∈ m.credFiles then m.credFiles else m.credFiles ++ [uid] },
       s)

/-- Embeds Go `GetOrCreateSession`: optimistic read under the shared
lock, falling through to `createNewSession` on a miss. -/
def getOrCreateSession (m : ManagerState) (uid : Nat) (now : Nat) :
    ManagerState × UserWhatsAppSession :=
  match lookupSession m.userSessions uid with
  | some s => (m, s)
  | none => createNewSession m uid now

/-- Embeds Go `MultiUserWhatsAppManager.GetStatus`. -/
def GetStatus (m : ManagerState) (uid : Nat) (now : Nat) :
    ManagerState × String :=
  let (m1, s) := getOrCreateSession m uid now
  (m1, s.status)

/-- Embeds Go `MultiUserWhatsAppManager.GetQRCode` (the fire-and-forget
`Connect` goroutine it may spawn has not yet run when the call returns,
so only the read is modelled). -/
def GetQRCode (m : ManagerState) (uid : Nat) (now : Nat) :
    ManagerState × String :=
  let (m1, s) := getOrCreateSession m uid now
  (m1, s.qrCode)

/-- Embeds Go `MultiUserWhatsAppManager.IsReady`. -/
def IsReady (m : ManagerState) (uid : Nat) (now : Nat) :
    ManagerState × Bool :=
  let (m1, s) := getOrCreateSession m uid now
  (m1, s.ready)

/-- Embeds Go `MultiUserWhatsAppManager.GetClient` (the client pointer is
modelled by its presence). -/
def GetClient (m : ManagerState) (uid : Nat) (now : Nat) :
    ManagerState × Bool :=
  let (m1, s) := getOrCreateSession m uid now
  (m1, s.hasClient)

/-- The field mutations Go `Logout` applies to the session object it is
about to drop (client logout + disconnect, status/ready/QR reset, cache
clear). -/
def logoutSession (s : UserWhatsAppSession) : UserWhatsAppSession :=
  { s with clientConnected := false, status := "disconnected",
           ready := false, qrCode := "", analysisCache := none }

/-- Embeds Go `MultiUserWhatsAppManager.Logout`.  `driver` is the
`WA_STORE_DRIVER` environment value (credential files are removed for
`""`/`"sqlite"`).  Returns the new manager state and the detached,
mutated session object (which abandoned goroutines still reference). -/
def Logout (m : ManagerState) (uid : Nat) (driver : String) :
    ManagerState × Option UserWhatsAppSession :=
  match lookupSession m.userSessions uid with
  | none =>
      ({ m with sessionRows := updateRowsStatus m.sessionRows uid "disconnected" },
       none)
  | some s =>
      ({ userSessions := m.userSessions.filter fun p => p.1 != uid,
         sessionRows := m.sessionRows.filter fun p => p.1 != uid,
         credFiles :=
           if driver == "" || driver == "sqlite" then
             m.credFiles.filter (fun x => x != uid)
           else m.credFiles },
       some (logoutSession s))

/-- Embeds Go `MultiUserWhatsAppManager.GetCachedAnalysis`: a cache hit
requires a registered session, a filled slot, and non-all-zero metrics. -/
def GetCachedAnalysis (m : ManagerState) (uid : Nat) : Option AnalysisResult :=
  match lookupSession m.userSessions uid with
  | none => none
  | some s =>
      match s.analysisCache with
      | some r =>
          if r.totalContacts > 0 || r.totalChats > 0 then some r else none
      | none => none

/-! ### Registry and row helper lemmas -/

/-- Appending a binding for a previously absent key makes it found (helper). -/
lemma lookupSession_append (l : List (Nat × UserWhatsAppSession)) (uid : Nat)
    (s : UserWhatsAppSession) (h : lookupSession l uid = none) :
    lookupSession (l ++ [(uid, s)]) uid = some s := by
  induction l with
  | nil => simp [lookupSession]
  | cons p t ih =>
      unfold lookupSession at h ⊢
      by_cases hp : p.1 == uid
      · simp [List.find?_cons, hp] at h
      · simp only [List.cons_append, List.find?_cons, hp]
        exact ih (by unfold lookupSession; simpa [List.find?_cons, hp] using h)

/-- Updating in place the rows of a present key sets its status (helper). -/
lemma rowStatus_map_set (rows : List (Nat × String)) (uid : Nat) (st : String)
    (h : (rows.any fun p => p.1 == uid) = true) :
    rowStatus (rows.map fun p => if p.1 == uid then (p.1, st) else p) uid =
      some st := by
  induction rows with
  | nil => simp at h
  | cons p t ih =>
      by_cases hp : (p.1 == uid) = true
      · unfold rowStatus
        rw [List.map_cons, if_pos hp]
        rw [List.find?_cons_of_pos _ (by simpa using hp)]
        rfl
      · unfold rowStatus
        rw [List.map_cons, if_neg hp]
        rw [List.find?_cons_of_neg _ (by simpa using hp)]
        have ht : (t.any fun p => p.1 == uid) = true := by
          rcases (List.any_eq_true.mp h) with ⟨q, hq, hq2⟩
          rcases List.mem_cons.mp hq with hq | hq
          · subst hq; exact absurd hq2 hp
          · exact List.any_eq_true.mpr ⟨q, hq, hq2⟩
        exact ih ht

/-- Appending a row for an absent key makes it the found row (helper). -/
lemma rowStatus_append_self (rows : List (Nat × String)) (uid : Nat) (st : String)
    (h : (rows.any fun p => p.1 == uid) = false) :
    rowStatus (rows ++ [(uid, st)]) uid = some st := by
  induction rows with
  | nil =>
      unfold rowStatus
      rw [List.nil_append, List.find?_cons_of_pos _ (by simp)]
      rfl
  | cons p t ih =>
      have hp : (p.1 == uid) = false := by
        by_contra hc
        simp only [Bool.not_eq_false] at hc
        simp [List.any_cons, hc] at h
      have ht : (t.any fun p => p.1 == uid) = false := by
        by_contra hc
        simp only [Bool.not_eq_false] at hc
        simp [List.any_cons, hc] at h
      unfold rowStatus
      rw [List.cons_append, List.find?_cons_of_neg _ (by simp [hp])]
      exact ih ht

/-- After `upsertRow` the user's row holds the written status (helper). -/
lemma rowStatus_upsertRow (rows : List (Nat × String)) (uid : Nat) (st : String) :
    rowStatus (upsertRow rows uid st) uid = some st := by
  unfold upsertRow
  by_cases hany : (rows.any fun p => p.1 == uid) = true
  · rw [if_pos hany]; exact rowStatus_map_set rows uid st hany
  · rw [if_neg hany]
    have hf : (rows.any fun p => p.1 == uid) = false := by
      revert hany; cases (rows.any fun p => p.1 == uid) <;> simp
    exact rowStatus_append_self rows uid st hf

/-- Filtering out a key makes its registry lookup `none` (helper). -/
lemma lookupSession_filter_ne (l : List (Nat × UserWhatsAppSession)) (uid : Nat) :
    lookupSession (l.filter fun p => p.1 != uid) uid = none := by
  induction l with
  | nil => simp [lookupSession]
  | cons p t ih =>
      by_cases hp : (p.1 == uid) = true
      · rw [List.filter_cons_of_neg (by simp [bne, hp])]
        exact ih
      · rw [List.filter_cons_of_pos (by simp [bne, hp])]
        unfold lookupSession
        rw [List.find?_cons_of_neg _ (by simpa using hp)]
        exact ih

/-- Filtering out a key makes its row lookup `none` (helper). -/
lemma rowStatus_filter_ne (l : List (Nat × String)) (uid : Nat) :
    rowStatus (l.filter fun p => p.1 != uid) uid = none := by
  induction l with
  | nil => simp [rowStatus]
  | cons p t ih =>
      by_cases hp : (p.1 == uid) = true
      · rw [List.filter_cons_of_neg (by simp [bne, hp])]
        exact ih
      · rw [List.filter_cons_of_pos (by simp [bne, hp])]
        unfold rowStatus
        rw [List.find?_cons_of_neg _ (by simpa using hp)]
        exact ih

/-! ### Claims C5, C1, C9, C4 -/

/-- C5: `connect()` is idempotent and rate-limited — while the status is
connected, scanning or connecting, or within the 5-second cool-down of
the previous attempt, it returns success, changes no session field, and
spawns no persistence write. -/
theorem C5_connect_noop (s : UserWhatsAppSession) (env : ConnectEnv)
    (h : s.status = "connected" ∨ s.status = "scanning" ∨
         s.status = "connecting" ∨ env.now - s.lastConnectAttempt < 5) :
    connect s env = (s, none, []) := by
  rcases h with h | h | h | h <;> simp [connect, h]

/-- Witness for C5: a connected session is untouched by `connect`. -/
theorem C5_connect_noop_witness :
    connect { newUserSession 1 0 with status := "connected" }
        ⟨100, true, true, true, true⟩ =
      ({ newUserSession 1 0 with status := "connected" }, none, []) :=
  C5_connect_noop { newUserSession 1 0 with status := "connected" }
    ⟨100, true, true, true, true⟩ (Or.inl rfl)

/-- C1: from `disconnected`, `connect()` either leaves the session
untouched (guard) or moves it to `connecting` and from there only to
`connected` (ready set, artifact empty) or `scanning`; once in
`scanning`, the watcher leaves the state only on a success event (to
`connected` with ready set and artifact cleared) or on the fixed
2-minute timeout (to `disconnected` with artifact cleared); no other
state is produced. -/
theorem C1_session_state_machine :
    (∀ (s : UserWhatsAppSession) (env : ConnectEnv),
      s.status = "disconnected" →
      ((connect s env).1 = s ∨
       (connect s env).1.status = "connecting" ∨
       ((connect s env).1.status = "connected" ∧
        (connect s env).1.ready = true ∧ (connect s env).1.qrCode = "") ∨
       (connect s env).1.status = "scanning")) ∧
    (∀ (s : UserWhatsAppSession) (ev : QREvent) (now : Nat),
      s.status = "scanning" →
      ((waitForQRStep s ev now).2.1 = false →
        (waitForQRStep s ev now).1.status = "scanning") ∧
      ((waitForQRStep s ev now).2.1 = true →
        ((ev = .success ∧ (waitForQRStep s ev now).1.status = "connected" ∧
          (waitForQRStep s ev now).1.ready = true ∧
          (waitForQRStep s ev now).1.qrCode = "") ∨
         (ev = .timeout ∧ (waitForQRStep s ev now).1.status = "disconnected" ∧
          (waitForQRStep s ev now).1.qrCode = "")))) ∧
    qrTimeoutSeconds = 2 * 60 := by
  refine ⟨?_, ?_, rfl⟩
  · intro s env h
    rcases env with ⟨now, gd, hsc, ro, fc⟩
    by_cases hc : now - s.lastConnectAttempt < 5
    · left; simp [connect, h, hc]
    · cases gd <;> cases hsc <;> cases ro <;> cases fc <;>
        simp [connect, h, hc]
  · intro s ev now h
    cases ev with
    | code c encodeOk =>
        cases encodeOk <;> simp [waitForQRStep, h]
    | success => simp [waitForQRStep]
    | other e => simp [waitForQRStep, h]
    | timeout => simp [waitForQRStep]

/-- Witness for C1: a disconnected session with no stored credentials and
a successful fresh connect ends in `scanning`, and from there the watcher
behaves as stated. -/
theorem C1_session_state_machine_witness :
    ((newUserSession 1 0).status = "disconnected" ∧
      ((connect (newUserSession 1 0) ⟨100, true, false, false, true⟩).1 =
          newUserSession 1 0 ∨
        (connect (newUserSession 1 0) ⟨100, true, false, false, true⟩).1.status
            = "connecting" ∨
        ((connect (newUserSession 1 0) ⟨100, true, false, false, true⟩).1.status
            = "connected" ∧
          (connect (newUserSession 1 0) ⟨100, true, false, false, true⟩).1.ready
            = true ∧
          (connect (newUserSession 1 0) ⟨100, true, false, false, true⟩).1.qrCode
            = "") ∨
        (connect (newUserSession 1 0) ⟨100, true, false, false, true⟩).1.status
            = "scanning")) :=
  ⟨rfl, (C1_session_state_machine.1 (newUserSession 1 0)
    ⟨100, true, false, false, true⟩ rfl)⟩

/-- C9: for a user with no registry entry, each read-style query
(`GetStatus`, `GetQRCode`, `IsReady`, `GetClient`) materializes a fresh
`disconnected` session as a side effect: it is registered in the map, its
credential store is initialized on disk, and a status row is persisted;
the returned values are those of the fresh session. -/
theorem C9_queries_materialize_session (m : ManagerState) (uid now : Nat)
    (h : lookupSession m.userSessions uid = none) :
    (GetStatus m uid now).2 = "disconnected" ∧
    (GetQRCode m uid now).2 = "" ∧
    (IsReady m uid now).2 = false ∧
    (GetClient m uid now).2 = false ∧
    ((GetStatus m uid now).1 = (GetQRCode m uid now).1 ∧
     (GetQRCode m uid now).1 = (IsReady m uid now).1 ∧
     (IsReady m uid now).1 = (GetClient m uid now).1) ∧
    lookupSession (GetStatus m uid now).1.userSessions uid =
      some (newUserSession uid now) ∧
    rowStatus (GetStatus m uid now).1.sessionRows uid = some "disconnected" ∧
    uid ∈ (GetStatus m uid now).1.credFiles := by
  have hget : getOrCreateSession m uid now =
      ({ userSessions := m.userSessions ++ [(uid, newUserSession uid now)],
         sessionRows := upsertRow m.sessionRows uid "disconnected",
         credFiles :=
           if uid ∈ m.credFiles then m.credFiles else m.credFiles ++ [uid] },
       newUserSession uid now) := by
    unfold getOrCreateSession createNewSession
    rw [h]
    rfl
  refine ⟨?_, ?_, ?_, ?_, ⟨?_, ?_, ?_⟩, ?_, ?_, ?_⟩
  · simp [GetStatus, hget, newUserSession]
  · simp [GetQRCode, hget, newUserSession]
  · simp [IsReady, hget, newUserSession]
  · simp [GetClient, hget, newUserSession]
  · simp [GetStatus, GetQRCode, hget]
  · simp [GetQRCode, IsReady, hget]
  · simp [IsReady, GetClient, hget]
  · simp only [GetStatus, hget]
    exact lookupSession_append m.userSessions uid (newUserSession uid now) h
  · simp only [GetStatus, hget]
    exact rowStatus_upsertRow m.sessionRows uid "disconnected"
  · simp only [GetStatus, hget]
    split
    · assumption
    · simp

/-- Witness for C9: polling status on an empty manager materializes the
session for user 1. -/
theorem C9_queries_materialize_session_witness :
    (GetStatus ⟨[], [], []⟩ 1 50).2 = "disconnected" ∧
    lookupSession (GetStatus ⟨[], [], []⟩ 1 50).1.userSessions 1 =
      some (newUserSession 1 50) ∧
    rowStatus (GetStatus ⟨[], [], []⟩ 1 50).1.sessionRows 1 =
      some "disconnected" ∧
    1 ∈ (GetStatus ⟨[], [], []⟩ 1 50).1.credFiles := by
  have h := C9_queries_materialize_session ⟨[], [], []⟩ 1 50 rfl
  exact ⟨h.1, h.2.2.2.2.2.1, h.2.2.2.2.2.2.1, h.2.2.2.2.2.2.2⟩

/-- C4: `Logout` of a registered user fully purges the session — the
client connection is dropped, the registry entry and the persisted row
are deleted, the on-disk credential files are removed (sqlite driver),
and the cache slot is cleared — so the next access constructs a
completely fresh session; `Logout` of an unknown user leaves the
registry and credential files alone and only sets any existing persisted
row to `disconnected`. -/
theorem C4_logout_purges (m : ManagerState) (uid : Nat) (driver : String)
    (s : UserWhatsAppSession)
    (hs : lookupSession m.userSessions uid = some s)
    (hd : driver = "" ∨ driver = "sqlite") :
    lookupSession (Logout m uid driver).1.userSessions uid = none ∧
    rowStatus (Logout m uid driver).1.sessionRows uid = none ∧
    uid ∉ (Logout m uid driver).1.credFiles ∧
    (Logout m uid driver).2 = some (logoutSession s) ∧
    ((logoutSession s).clientConnected = false ∧
     (logoutSession s).status = "disconnected" ∧
     (logoutSession s).ready = false ∧
     (logoutSession s).qrCode = "" ∧
     (logoutSession s).analysisCache = none) ∧
    (∀ now, (getOrCreateSession (Logout m uid driver).1 uid now).2 =
      newUserSession uid now) ∧
    (∀ m2 : ManagerState, lookupSession m2.userSessions uid = none →
      (Logout m2 uid driver).1.userSessions = m2.userSessions ∧
      (Logout m2 uid driver).1.credFiles = m2.credFiles ∧
      (Logout m2 uid driver).1.sessionRows =
        updateRowsStatus m2.sessionRows uid "disconnected" ∧
      (Logout m2 uid driver).2 = none) := by
  have hL : Logout m uid driver =
      ({ userSessions := m.userSessions.filter fun p => p.1 != uid,
         sessionRows := m.sessionRows.filter fun p => p.1 != uid,
         credFiles :=
           if driver == "" || driver == "sqlite" then
             m.credFiles.filter (fun x => x != uid)
           else m.credFiles },
       some (logoutSession s)) := by
    unfold Logout; rw [hs]
  have hdrv : (driver == "" || driver == "sqlite") = true := by
    rcases hd with hd | hd <;> simp [hd]
  refine ⟨?_, ?_, ?_, ?_, ⟨rfl, rfl, rfl, rfl, rfl⟩, ?_, ?_⟩
  · rw [hL]; exact lookupSession_filter_ne m.userSessions uid
  · rw [hL]; exact rowStatus_filter_ne m.sessionRows uid
  · rw [hL]
    simp only [hdrv, if_pos]
    intro hc
    rcases List.mem_filter.mp hc with ⟨-, hne⟩
    simp at hne
  · rw [hL]
  · intro now
    rw [hL]
    unfold getOrCreateSession createNewSession
    rw [lookupSession_filter_ne m.userSessions uid]
  · intro m2 h2
    unfold Logout
    rw [h2]
    exact ⟨rfl, rfl, rfl, rfl⟩

/-- A concrete connected session for user 1 (C4 witness input). -/
def c4Session : UserWhatsAppSession :=
  { newUserSession 1 0 with
      status := "connected"
      ready := true
      hasClient := true
      clientConnected := true }

/-- A concrete manager holding only `c4Session` (C4 witness input). -/
def c4Manager : ManagerState := ⟨[(1, c4Session)], [(1, "connected")], [1]⟩

/-- Witness for C4 at a concrete connected session for user 1. -/
theorem C4_logout_purges_witness :
    lookupSession (Logout c4Manager 1 "sqlite").1.userSessions 1 = none ∧
    rowStatus (Logout c4Manager 1 "sqlite").1.sessionRows 1 = none ∧
    1 ∉ (Logout c4Manager 1 "sqlite").1.credFiles := by
  have h := C4_logout_purges c4Manager 1 "sqlite" c4Session rfl (Or.inr rfl)
  exact ⟨h.1, h.2.1, h.2.2.1⟩

/-! ### Claim C3: abandoned pairing watcher after logout

`waitForQR` carries no generation token, closed signal or registry
re-check: its success and timeout branches mutate the captured session
object and call `saveOrUpdateSessionInDatabase` unconditionally, so they
still fire after `Logout` has detached the session and deleted its row. -/

/-- A session mid-pairing for user 1 (C3 inputs). -/
def c3Session : UserWhatsAppSession :=
  { newUserSession 1 0 with
      status := "scanning"
      hasClient := true
      clientConnected := true
      qrCode := "data:image/png;base64,QR" }

/-- A manager holding only `c3Session` (C3 inputs). -/
def c3Manager : ManagerState := ⟨[(1, c3Session)], [(1, "scanning")], [1]⟩

/-- C3 counterexample: for user 1 blocked in pairing, `Logout` deletes the
persisted row, yet the abandoned watcher's next event (a pairing success)
still changes the captured session's status and ready flag and re-persists
a status row — contradicting the claim that after logout no later watcher
action changes the session's status, ready flag or persisted row. -/
theorem C3_counterexample :
    (Logout c3Manager 1 "sqlite").2 = some (logoutSession c3Session) ∧
    rowStatus (Logout c3Manager 1 "sqlite").1.sessionRows 1 = none ∧
    (waitForQRStep (logoutSession c3Session) QREvent.success 5).1.status ≠
      (logoutSession c3Session).status ∧
    (waitForQRStep (logoutSession c3Session) QREvent.success 5).1.ready = true ∧
    (logoutSession c3Session).ready = false ∧
    (waitForQRStep (logoutSession c3Session) QREvent.success 5).2.2 =
      some "connected" ∧
    rowStatus
      (upsertRow (Logout c3Manager 1 "sqlite").1.sessionRows 1 "connected") 1 =
      some "connected" := by
  refine ⟨rfl, rfl, ?_, rfl, rfl, rfl, rfl⟩
  intro hc
  simp [waitForQRStep, logoutSession, c3Session] at hc

/-- C3 (amended): there is no generation token or closed-signal check in
`waitForQR` — after `Logout` detaches a session and deletes its persisted
row, the abandoned watcher's success event still sets the captured
session to `connected` with `ready = true` and re-persists a `connected`
row, and its timeout still re-persists a `disconnected` row. -/
theorem C3_watcher_survives_logout (m : ManagerState) (uid : Nat)
    (driver : String) (s : UserWhatsAppSession) (now : Nat)
    (hs : lookupSession m.userSessions uid = some s) :
    rowStatus (Logout m uid driver).1.sessionRows uid = none ∧
    (Logout m uid driver).2 = some (logoutSession s) ∧
    ((waitForQRStep (logoutSession s) QREvent.success now).1.status =
        "connected" ∧
      (waitForQRStep (logoutSession s) QREvent.success now).1.ready = true ∧
      (waitForQRStep (logoutSession s) QREvent.success now).2.2 =
        some "connected") ∧
    rowStatus
      (upsertRow (Logout m uid driver).1.sessionRows uid "connected") uid =
      some "connected" ∧
    ((waitForQRStep (logoutSession s) QREvent.timeout now).1.status =
        "disconnected" ∧
      (waitForQRStep (logoutSession s) QREvent.timeout now).2.2 =
        some "disconnected") ∧
    rowStatus
      (upsertRow (Logout m uid driver).1.sessionRows uid "disconnected") uid =
      some "disconnected" := by
  have hL : (Logout m uid driver).1.sessionRows =
      m.sessionRows.filter fun p => p.1 != uid := by
    unfold Logout; rw [hs]
  have hL2 : (Logout m uid driver).2 = some (logoutSession s) := by
    unfold Logout; rw [hs]
  refine ⟨?_, hL2, ⟨rfl, rfl, rfl⟩, ?_, ⟨rfl, rfl⟩, ?_⟩
  · rw [hL]; exact rowStatus_filter_ne m.sessionRows uid
  · exact rowStatus_upsertRow _ uid "connected"
  · exact rowStatus_upsertRow _ uid "disconnected"

/-- Witness for the amended C3 at the concrete mid-pairing manager. -/
theorem C3_watcher_survives_logout_witness :
    rowStatus (Logout c3Manager 1 "sqlite").1.sessionRows 1 = none ∧
    (waitForQRStep (logoutSession c3Session) QREvent.success 5).1.status =
      "connected" ∧
    rowStatus
      (upsertRow (Logout c3Manager 1 "sqlite").1.sessionRows 1 "connected") 1 =
      some "connected" := by
  have h := C3_watcher_survives_logout c3Manager 1 "sqlite" c3Session 5 rfl
  exact ⟨h.1, h.2.2.1.1, h.2.2.2.1⟩

/-! ### Claim C7: cache invalidation on the ready transition

The single-user client (`client.go`, `monitorStatus`) does clear the
analysis cache on a `not-ready → ready` transition; the multi-user
session's pairing-success transition in `waitForQR` does not touch the
cache slot. -/

/-- Embeds the fields of the single-user Go `WhatsApp` struct
(`client.go`) that `monitorStatus` reads and writes. -/
structure WhatsAppClientState where
  hasClient : Bool
  storeIdPresent : Bool
  transportConnected : Bool
  ready : Bool
  qrCode : String
  analysisCache : Option AnalysisResult
deriving Repr, DecidableEq

/-- Embeds one tick of Go `WhatsApp.monitorStatus`: recompute `ready`
from the client's login/connection flags; on a `false → true` change,
clear the QR code and the analysis cache. -/
def monitorStatusTick (w : WhatsAppClientState) : WhatsAppClientState :=
  if w.hasClient then
    let newReady := w.storeIdPresent && w.transportConnected
    if w.ready != newReady && newReady then
      { w with ready := newReady, qrCode := "", analysisCache := none }
    else { w with ready := newReady }
  else w

/-- A non-zero analysis result cached for user 1 (C7 inputs). -/
def c7Result : AnalysisResult :=
  { userId := 1, totalChats := 13, totalContacts := 10, accountAgeDays := 365,
    totalGroups := 1, totalChatWithContact := 8, sensitiveContentCount := 1,
    totalUnsavedChats := 2, unknownNumberChats := 2, strength := "Cukup",
    scanHistoryId := none }

/-- A not-ready session for user 1 whose cache slot is filled (C7 inputs). -/
def c7Session : UserWhatsAppSession :=
  { newUserSession 1 0 with
      status := "scanning"
      hasClient := true
      clientConnected := true
      analysisCache := some c7Result }

/-- A manager holding only `c7Session` (C7 inputs). -/
def c7Manager : ManagerState := ⟨[(1, c7Session)], [(1, "scanning")], [1]⟩

/-- C7 counterexample: the pairing-success transition of `waitForQR`
flips `ready` from false to true without clearing the cache slot, so a
cache lookup that hit before the transition still hits after it —
contradicting the claim that every `ready:false → ready:true` transition
clears the analysis cache slot. -/
theorem C7_counterexample :
    c7Session.ready = false ∧
    (waitForQRStep c7Session QREvent.success 5).1.ready = true ∧
    GetCachedAnalysis c7Manager 1 = some c7Result ∧
    GetCachedAnalysis
      { c7Manager with
          userSessions := [(1, (waitForQRStep c7Session QREvent.success 5).1)] }
      1 = some c7Result :=
  ⟨rfl, rfl, rfl, rfl⟩

/-- C7 (amended): the single-user client's status monitor does clear the
analysis cache on every `not-ready → ready` reconciliation, but the
multi-user session's pairing-success transition sets `ready` without
touching the cache slot, which it leaves exactly as it was. -/
theorem C7_cache_invalidation_only_single_user
    (w : WhatsAppClientState) (s : UserWhatsAppSession) (now : Nat)
    (hw : w.ready = false) (hn : (monitorStatusTick w).ready = true) :
    (monitorStatusTick w).analysisCache = none ∧
    ((waitForQRStep s QREvent.success now).1.ready = true ∧
      (waitForQRStep s QREvent.success now).1.analysisCache =
        s.analysisCache) := by
  refine ⟨?_, rfl, rfl⟩
  rcases w with ⟨hc, si, tc, rd, qr, ac⟩
  simp only at hw
  subst hw
  cases hc <;> cases si <;> cases tc <;> simp_all [monitorStatusTick]

/-- Witness for the amended C7: a concrete monitor tick that clears the
single-user cache, next to the multi-user success step that keeps
`c7Session`'s slot. -/
theorem C7_cache_invalidation_only_single_user_witness :
    (monitorStatusTick ⟨true, true, true, false, "qr", some c7Result⟩).analysisCache
        = none ∧
    ((waitForQRStep c7Session QREvent.success 5).1.ready = true ∧
      (waitForQRStep c7Session QREvent.success 5).1.analysisCache =
        c7Session.analysisCache) :=
  C7_cache_invalidation_only_single_user
    ⟨true, true, true, false, "qr", some c7Result⟩ c7Session 5 rfl rfl

/-! ### Claim C10: `Analyze` and its contact partition
(`UserWhatsAppSession.Analyze` in `multi_user_manager.go`)

The contact map fetched from the client is modelled as a list of
entries; `int(float64(n) * c)` for the constants 0.3 / 0.8 / 0.1 equals
`⌊c·n⌋`, i.e. `(3*n)/10`, `(8*n)/10`, `n/10` in integer arithmetic, since
the float64 rounding error never crosses an integer boundary at these
magnitudes. -/

/-- One entry of the fetched contact map: the JID's user and server parts
and the contact's full name. -/
structure ContactEntry where
  jidUser : String
  jidServer : String
  fullName : String
deriving Repr, DecidableEq

/-- The saved/unsaved split condition of `Analyze`:
`contact.FullName != "" && contact.FullName != "Unknown"`. -/
def isSavedContact (c : ContactEntry) : Bool :=
  c.fullName != "" && c.fullName != "Unknown"

/-- Embeds Go `estimateTotalChats`: saved contacts plus 30% extra. -/
def estimateTotalChats (contacts : List ContactEntry) : Int :=
  (contacts.length : Int) + (3 * contacts.length) / 10

/-- Embeds Go `estimateChatsWithContacts`: 80% of saved contacts. -/
def estimateChatsWithContacts (contacts : List ContactEntry) : Int :=
  (8 * contacts.length) / 10

/-- Embeds Go `estimateSensitiveContent`: 10% of saved contacts. -/
def estimateSensitiveContentOf (contacts : List ContactEntry) : Int :=
  (contacts.length : Int) / 10

/-- Embeds Go `calculateTotalGroups`: client-reported groups, overridden
by a larger stored-group count, falling back to groups found among the
contacts when both are zero. -/
def calculateTotalGroups (contacts : List ContactEntry)
    (clientGroups : Option Nat) (storedGroups : Nat) : Int :=
  let contactGroups := (contacts.filter fun c => c.jidServer == "g.us").length
  let tg0 : Nat := match clientGroups with | some n => n | none => 0
  let tg1 : Nat := if storedGroups > 0 && storedGroups > tg0 then storedGroups else tg0
  if tg1 == 0 then (contactGroups : Int) else (tg1 : Int)

/-- Embeds the fresh-computation path of Go
`UserWhatsAppSession.Analyze` (after the cache check): fails when the
fetched contact map is empty, otherwise partitions contacts into saved
and unsaved, computes the eight metrics — with `TotalUnsavedChats` and
`UnknownNumberChats` both set to `len(unsavedContacts)` — and scores
them.  The account-age heuristic (`estimateAccountAge`) is taken as an
input, as no claim depends on its value. -/
def analyzeFresh (userID : Nat) (allContacts : List ContactEntry)
    (accountAgeDays : Int) (clientGroups : Option Nat) (storedGroups : Nat) :
    Option AnalysisResult :=
  if allContacts.length == 0 then none
  else
    let savedContacts := allContacts.filter isSavedContact
    let unsavedContacts := allContacts.filter fun c => !(isSavedContact c)
    let totalContacts : Int := savedContacts.length
    let totalChats := estimateTotalChats savedContacts
    let totalGroups := calculateTotalGroups savedContacts clientGroups storedGroups
    let totalChatWithContact := estimateChatsWithContacts savedContacts
    let totalUnsavedChats : Int := unsavedContacts.length
    let unknownNumberChats : Int := unsavedContacts.length
    let sensitiveContentCount := estimateSensitiveContentOf savedContacts
    let strength := CalculateStrength totalChats totalContacts accountAgeDays
      totalGroups totalChatWithContact sensitiveContentCount totalUnsavedChats
      unknownNumberChats
    some { userId := userID, totalChats := totalChats,
           totalContacts := totalContacts, accountAgeDays := accountAgeDays,
           totalGroups := totalGroups,
           totalChatWithContact := totalChatWithContact,
           sensitiveContentCount := sensitiveContentCount,
           totalUnsavedChats := totalUnsavedChats,
           unknownNumberChats := unknownNumberChats,
           strength := strength, scanHistoryId := none }

/-- The mean-threshold comparisons of `CalculateStrength` in integer form
(helper): `totalScore/8 ≥ 5/2 ↔ totalScore ≥ 20` and
`totalScore/8 ≥ 3/2 ↔ totalScore ≥ 12`. -/
lemma CalculateStrength_totalScore (a b c d e f g k : Int) :
    CalculateStrength a b c d e f g k =
      (if 20 ≤ totalScoreOf (strengthEvaluations a b c d e f g k) then "Baik"
       else if 12 ≤ totalScoreOf (strengthEvaluations a b c d e f g k) then
         "Cukup"
       else "Buruk") := by
  have hq5 : ∀ t : Int, ((t:ℚ)/8 ≥ 5/2 ↔ 20 ≤ t) := by
    intro t
    constructor
    · intro h
      have h20 : (20:ℚ) ≤ (t:ℚ) := by
        rw [ge_iff_le, le_div_iff₀ (by norm_num : (0:ℚ) < 8)] at h
        linarith
      exact_mod_cast h20
    · intro h
      have h20 : (20:ℚ) ≤ (t:ℚ) := by exact_mod_cast h
      rw [ge_iff_le, le_div_iff₀ (by norm_num : (0:ℚ) < 8)]
      linarith
  have hq3 : ∀ t : Int, ((t:ℚ)/8 ≥ 3/2 ↔ 12 ≤ t) := by
    intro t
    constructor
    · intro h
      have h12 : (12:ℚ) ≤ (t:ℚ) := by
        rw [ge_iff_le, le_div_iff₀ (by norm_num : (0:ℚ) < 8)] at h
        linarith
      exact_mod_cast h12
    · intro h
      have h12 : (12:ℚ) ≤ (t:ℚ) := by exact_mod_cast h
      rw [ge_iff_le, le_div_iff₀ (by norm_num : (0:ℚ) < 8)]
      linarith
  unfold CalculateStrength averageScoreOf
  simp only [hq5, hq3]

/-- C10: every `AnalysisResult` a successful `Analyze` computation
returns has `TotalUnsavedChats = UnknownNumberChats`, both equal to the
number of fetched contacts whose full name is empty or "Unknown". -/
theorem C10_unsaved_equals_unknown (uid : Nat) (contacts : List ContactEntry)
    (age : Int) (cg : Option Nat) (sg : Nat) (r : AnalysisResult)
    (h : analyzeFresh uid contacts age cg sg = some r) :
    r.totalUnsavedChats = r.unknownNumberChats ∧
    r.totalUnsavedChats =
      ((contacts.filter fun c => !(isSavedContact c)).length : Int) := by
  unfold analyzeFresh at h
  by_cases he : (contacts.length == 0) = true
  · rw [if_pos he] at h; exact absurd h (by simp)
  · rw [if_neg he] at h
    have := Option.some.inj h
    subst this
    exact ⟨rfl, rfl⟩

/-- Concrete contact list for the C10 witness: one saved contact, one
nameless contact, one "Unknown" contact. -/
def c10Contacts : List ContactEntry :=
  [⟨"628111", "s.whatsapp.net", "Alice"⟩,
   ⟨"628222", "s.whatsapp.net", ""⟩,
   ⟨"628333", "s.whatsapp.net", "Unknown"⟩]

/-- The result `analyzeFresh` computes on `c10Contacts` (C10 witness). -/
def c10Result : AnalysisResult :=
  { userId := 7, totalChats := 1, totalContacts := 1, accountAgeDays := 365,
    totalGroups := 0, totalChatWithContact := 0, sensitiveContentCount := 0,
    totalUnsavedChats := 2, unknownNumberChats := 2, strength := "Cukup",
    scanHistoryId := none }

/-- Witness for C10 on `c10Contacts`: the two metrics agree and equal the
two unsaved contacts. -/
theorem C10_unsaved_equals_unknown_witness :
    analyzeFresh 7 c10Contacts 365 none 0 = some c10Result ∧
    (c10Result.totalUnsavedChats = c10Result.unknownNumberChats ∧
     c10Result.totalUnsavedChats =
       ((c10Contacts.filter fun c => !(isSavedContact c)).length : Int)) := by
  have hsome : analyzeFresh 7 c10Contacts 365 none 0 = some c10Result := by
    unfold analyzeFresh
    rw [if_neg (by decide)]
    dsimp only
    rw [CalculateStrength_totalScore]
    decide
  exact ⟨hsome,
    C10_unsaved_equals_unknown 7 c10Contacts 365 none 0 c10Result hsome⟩

/-! ### Claim C2: registry uniqueness under concurrent `getOrCreate`

Interleaving model of N goroutines calling `GetOrCreateSession` for the
same previously-unseen user ID.  Each call has two atomic phases,
mirroring the code's lock structure: the optimistic lookup under the
shared `RLock` (after which the goroutine either returns the hit or
falls through), and the entire body of `createNewSession` under the
exclusive `Lock` (re-check, then construct + initialize the credential
store + store).  Session object identity is modelled by an allocation
counter: `constructed` counts constructions (one credential-store
initialization each), and the object allocated n-th is the value `n`. -/

/-- The control point of one `GetOrCreateSession` caller. -/
inductive CallerPhase where
  | start
  | read (found : Option Nat)
  | done (res : Nat)
deriving Repr, DecidableEq

/-- Shared state: the registry slot for the one user ID of interest, the
number of constructions performed, and the phase of each caller. -/
structure RegistryState where
  slot : Option Nat
  constructed : Nat
  callers : List CallerPhase
deriving Repr, DecidableEq

/-- Initial state for `k` concurrent callers of a fresh user ID. -/
def initRegistry (k : Nat) : RegistryState :=
  ⟨none, 0, List.replicate k CallerPhase.start⟩

/-- One atomic step of the interleaving: the shared-lock read; returning
an optimistic hit; or the exclusive-lock `createNewSession` body, which
re-checks the map and either returns the existing object or constructs
exactly one new one. -/
inductive RegStep : RegistryState → RegistryState → Prop where
  | readPhase (g : RegistryState) (i : Nat)
      (h : g.callers.get? i = some CallerPhase.start) :
      RegStep g ⟨g.slot, g.constructed, g.callers.set i (.read g.slot)⟩
  | returnHit (g : RegistryState) (i sid : Nat)
      (h : g.callers.get? i = some (CallerPhase.read (some sid))) :
      RegStep g ⟨g.slot, g.constructed, g.callers.set i (.done sid)⟩
  | createRecheckHit (g : RegistryState) (i sid : Nat)
      (h : g.callers.get? i = some (CallerPhase.read none))
      (hslot : g.slot = some sid) :
      RegStep g ⟨g.slot, g.constructed, g.callers.set i (.done sid)⟩
  | createConstruct (g : RegistryState) (i : Nat)
      (h : g.callers.get? i = some (CallerPhase.read none))
      (hslot : g.slot = none) :
      RegStep g ⟨some g.constructed, g.constructed + 1,
                 g.callers.set i (.done g.constructed)⟩

/-- States reachable from the `k`-caller initial state. -/
def Reachable (k : Nat) (g : RegistryState) : Prop :=
  Relation.ReflTransGen RegStep (initRegistry k) g

/-- The inductive invariant: before any construction the slot is empty,
nothing is constructed and every caller has seen a miss at most; after
it, the slot holds object 0, exactly one construction happened, and
every caller either has not read yet, read a miss before the
construction, read the hit, or finished with object 0. -/
def RegInv (g : RegistryState) : Prop :=
  match g.slot with
  | none =>
      g.constructed = 0 ∧
      ∀ c ∈ g.callers, c = CallerPhase.start ∨ c = CallerPhase.read none
  | some sid =>
      sid = 0 ∧ g.constructed = 1 ∧
      ∀ c ∈ g.callers, c = CallerPhase.start ∨ c = CallerPhase.read none ∨
        c = CallerPhase.read (some 0) ∨ c = CallerPhase.done 0

/-- The invariant holds initially (helper). -/
lemma regInv_init (k : Nat) : RegInv (initRegistry k) := by
  refine ⟨rfl, ?_⟩
  intro c hc
  left
  exact List.eq_of_mem_replicate hc

/-- The invariant is preserved by every step (helper). -/
lemma regInv_step (g g' : RegistryState) (hs : RegStep g g')
    (hinv : RegInv g) : RegInv g' := by
  cases hs with
  | readPhase i h =>
      rcases hg : g.slot with - | sid
      · rw [RegInv, hg] at hinv
        rw [RegInv]
        simp only [hg]
        refine ⟨hinv.1, ?_⟩
        intro c hc
        rcases List.mem_or_eq_of_mem_set hc with hc | hc
        · exact hinv.2 c hc
        · right; rw [hc]
      · rw [RegInv, hg] at hinv
        rw [RegInv]
        simp only [hg]
        refine ⟨hinv.1, hinv.2.1, ?_⟩
        intro c hc
        rcases List.mem_or_eq_of_mem_set hc with hc | hc
        · exact hinv.2.2 c hc
        · right; right; left; rw [hc, hinv.1]
  | returnHit i sid h =>
      have hmem : CallerPhase.read (some sid) ∈ g.callers := List.get?_mem h
      rcases hg : g.slot with - | s0
      · rw [RegInv, hg] at hinv
        rcases hinv.2 _ hmem with hc | hc <;> simp at hc
      · rw [RegInv, hg] at hinv
        have hsid : sid = 0 := by
          rcases hinv.2.2 _ hmem with hc | hc | hc | hc <;> simp at hc
          exact hc
        rw [RegInv]
        simp only [hg]
        refine ⟨hinv.1, hinv.2.1, ?_⟩
        intro c hc
        rcases List.mem_or_eq_of_mem_set hc with hc | hc
        · exact hinv.2.2 c hc
        · right; right; right; rw [hc, hsid]
  | createRecheckHit i sid h hslot =>
      rw [RegInv, hslot] at hinv
      rw [RegInv]
      simp only [hslot]
      refine ⟨hinv.1, hinv.2.1, ?_⟩
      intro c hc
      rcases List.mem_or_eq_of_mem_set hc with hc | hc
      · exact hinv.2.2 c hc
      · right; right; right; rw [hc, hinv.1]
  | createConstruct i h hslot =>
      rw [RegInv, hslot] at hinv
      rw [RegInv]
      simp only
      rw [hinv.1]
      refine ⟨rfl, rfl, ?_⟩
      intro c hc
      rcases List.mem_or_eq_of_mem_set hc with hc | hc
      · rcases hinv.2 c hc with hc2 | hc2
        · left; exact hc2
        · right; left; exact hc2
      · right; right; right; rw [hc]

/-- Every reachable state satisfies the invariant (helper). -/
lemma regInv_reachable (k : Nat) (g : RegistryState) (h : Reachable k g) :
    RegInv g := by
  induction h with
  | refl => exact regInv_init k
  | tail _ hstep ih => exact regInv_step _ _ hstep ih

/-- Reachable states keep all `k` callers (helper). -/
lemma regLen_reachable (k : Nat) (g : RegistryState) (h : Reachable k g) :
    g.callers.length = k := by
  induction h with
  | refl => simp [initRegistry]
  | tail _ hstep ih => cases hstep <;> simpa [List.length_set] using ih

/-- C2: in every interleaving of `k` concurrent `getOrCreate` calls for
the same fresh user ID that runs all callers to completion, exactly one
construction (hence one credential-store initialization) happened and
every caller got the same object; moreover once the slot is filled, no
step ever constructs again or replaces the stored object — the re-check
under the exclusive lock returns the existing object. -/
theorem C2_registry_uniqueness (k : Nat) (g : RegistryState)
    (hreach : Reachable k g)
    (hdone : ∀ c ∈ g.callers, ∃ r, c = CallerPhase.done r)
    (hk : 0 < k) :
    g.constructed = 1 ∧ g.slot = some 0 ∧
    (∀ c ∈ g.callers, c = CallerPhase.done 0) ∧
    (∀ g2 g3 : RegistryState, RegStep g2 g3 → g2.slot ≠ none →
      g3.constructed = g2.constructed ∧ g3.slot = g2.slot) := by
  have hinv := regInv_reachable k g hreach
  have hlen := regLen_reachable k g hreach
  have hne : g.callers ≠ [] := by
    intro hc; rw [hc] at hlen; simp at hlen; omega
  obtain ⟨c0, hc0⟩ := List.exists_mem_of_ne_nil g.callers hne
  obtain ⟨r0, hr0⟩ := hdone c0 hc0
  have hslot : g.slot = some 0 := by
    rcases hg : g.slot with - | sid
    · rw [RegInv, hg] at hinv
      rcases hinv.2 c0 hc0 with hc | hc <;> rw [hr0] at hc <;> simp at hc
    · rw [RegInv, hg] at hinv
      rw [hinv.1]
  rw [RegInv, hslot] at hinv
  refine ⟨hinv.2.1, hslot, ?_, ?_⟩
  · intro c hc
    obtain ⟨r, hr⟩ := hdone c hc
    have h2 := hinv.2.2 c hc
    rw [hr] at h2 ⊢
    rcases h2 with h2 | h2 | h2 | h2
    · exact absurd h2 (by simp)
    · exact absurd h2 (by simp)
    · exact absurd h2 (by simp)
    · exact h2
  · intro g2 g3 hstep hne2
    cases hstep with
    | readPhase i h => exact ⟨rfl, rfl⟩
    | returnHit i sid h => exact ⟨rfl, rfl⟩
    | createRecheckHit i sid h hslot2 => exact ⟨rfl, rfl⟩
    | createConstruct i h hslot2 => exact absurd hslot2 hne2

/-- Witness for C2: the one-caller interleaving read-miss → construct
reaches the final state with exactly one construction and the caller
holding object 0. -/
theorem C2_registry_uniqueness_witness :
    (⟨some 0, 1, [CallerPhase.done 0]⟩ : RegistryState).constructed = 1 ∧
    (⟨some 0, 1, [CallerPhase.done 0]⟩ : RegistryState).slot = some 0 ∧
    ∀ c ∈ (⟨some 0, 1, [CallerPhase.done 0]⟩ : RegistryState).callers,
      c = CallerPhase.done 0 := by
  have hreach : Reachable 1 ⟨some 0, 1, [CallerPhase.done 0]⟩ :=
    Relation.ReflTransGen.tail
      (Relation.ReflTransGen.tail Relation.ReflTransGen.refl
        (RegStep.readPhase (initRegistry 1) 0 rfl))
      (RegStep.createConstruct ⟨none, 0, [CallerPhase.read none]⟩ 0 rfl rfl)
  have h := C2_registry_uniqueness 1 ⟨some 0, 1, [CallerPhase.done 0]⟩ hreach
    (by
      intro c hc
      simp only [List.mem_singleton] at hc
      exact ⟨0, hc⟩)
    (by decide)
  exact ⟨h.1, h.2.1, h.2.2.1⟩

end CekWA
